import Mathlib

/-!
Verification development for the Finance repository (browser-resident
bookkeeping tool).  Monetary amounts are modelled as rationals (`ℚ`), dates
as ISO-8601 strings (lexicographic comparison equals chronological order for
the fixed-width format the app uses), and the JavaScript `Array.prototype.sort`
as a comparison sort driven by the source comparator.
-/

namespace Finance

/-- Transaction kinds, from `types.ts` extended with the members referenced
throughout the code (`CONT`, `OPENING`, `NB`, `WHT`, `ITAX`, `SSEC`, `PCA`). -/
inductive TransactionType where
  | INCOME | EXPENSE | ADV | TRF | CONT | OPENING | NB | WHT | ITAX | SSEC | PCA
deriving DecidableEq

/-- Transaction lifecycle status, from `types.ts`. -/
inductive TransactionStatus where
  | CLEARED | PENDING | RECONCILED
deriving DecidableEq

/-- A ledger transaction, from `types.ts` (`Transaction`).  `amount` is the
stored non-negative magnitude; direction is derived from `type`. -/
structure Transaction where
  id : String
  date : String
  voucherNumber : String
  chequeNumber : Option String
  activity : String
  description : String
  payeeOrPayer : String
  amount : ℚ
  type : TransactionType
  accountCode : String
  status : TransactionStatus
deriving DecidableEq

/-- Chart-of-accounts entry, from `types.ts` (`ChartOfAccountItem`);
the optional `isHeader` flag is modelled as `Bool` (absent = `false`). -/
structure ChartOfAccountItem where
  code : String
  category : String
  isHeader : Bool
deriving DecidableEq

/-- Budget line, from `types.ts` (`BudgetLine`). -/
structure BudgetLine where
  code : String
  monthlyBudget : ℚ
deriving DecidableEq

/-- Ephemeral bank-statement line, from `types.ts` (`BankTransaction`). -/
structure BankTransaction where
  id : String
  date : String
  description : String
  amount : ℚ
  matchedTransactionId : Option String
deriving DecidableEq

open TransactionType TransactionStatus

/-! ## Type-classification helpers (`Reports.tsx` lines 49–54) -/

/-- `isIncomeType` from `Reports.tsx`: INCOME or CONT. -/
def isIncomeType : TransactionType → Bool
  | INCOME => true
  | CONT => true
  | _ => false

/-- `isOpeningType` from `Reports.tsx`: OPENING. -/
def isOpeningType : TransactionType → Bool
  | OPENING => true
  | _ => false

/-- `isExpenseType` from `Reports.tsx`: strictly EXPENSE. -/
def isExpenseType : TransactionType → Bool
  | EXPENSE => true
  | _ => false

/-! ## Transaction store (`FinanceContext.tsx`) -/

/-- Step function of the `reduce` inside `getBalance` (`FinanceContext.tsx`
lines 118–125): add the amount for INCOME/CONT/OPENING, subtract otherwise. -/
def getBalanceStep (acc : ℚ) (t : Transaction) : ℚ :=
  if t.type = INCOME ∨ t.type = CONT ∨ t.type = OPENING then acc + t.amount
  else acc - t.amount

/-- `getBalance` from `FinanceContext.tsx` lines 118–125. -/
def getBalance (transactions : List Transaction) : ℚ :=
  transactions.foldl getBalanceStep 0

/-- `deleteTransaction` from `FinanceContext.tsx` lines 87–89: keep the
transactions whose string-coerced id differs from the string-coerced input id
(`String(x)` on a string is the identity, as is `toString` here). -/
def deleteTransaction (transactions : List Transaction) (id : String) :
    List Transaction :=
  transactions.filter (fun t => toString t.id ≠ toString id)

/-- `updateTransaction` from `FinanceContext.tsx` lines 91–94: replace every
transaction whose id matches `t.id` by `t` (ids are already strings here, so
the `String(...)` coercions are identities). -/
def updateTransaction (transactions : List Transaction) (t : Transaction) :
    List Transaction :=
  transactions.map (fun tr => if tr.id = t.id then t else tr)

/-! ## JavaScript `Array.prototype.sort` model

The engine sorts with comparators.  We model `.sort(cmp)` as a comparison
sort that places `x` before `y` exactly when `cmp x y ≤ 0`, realised as an
insertion sort (any comparison sort gives the same ordering guarantees and
the same multiset of elements, which is all the claims use). -/

def jsInsert (cmp : α → α → Int) (x : α) : List α → List α
  | [] => [x]
  | y :: ys => if cmp x y ≤ 0 then x :: y :: ys else y :: jsInsert cmp x ys

def jsSortBy (cmp : α → α → Int) (l : List α) : List α :=
  l.foldr (jsInsert cmp) []

/-! ## Ledger running balance (`Ledger.tsx` lines 167–181) -/

/-- Comparator used by `transactionsWithBalance` in `Ledger.tsx`:
`new Date(a.date).getTime() - new Date(b.date).getTime()`, whose sign is the
chronological order, i.e. the lexicographic order of the ISO date strings. -/
def dateCmp (a b : Transaction) : Int :=
  if a.date < b.date then -1 else if a.date = b.date then 0 else 1

/-- Step of the running-balance scan in `Ledger.tsx` lines 173–180:
add for INCOME, subtract for everything else (Expense, ADV, TRF, …). -/
def runningStep (balance : ℚ) (t : Transaction) : ℚ :=
  if t.type = INCOME then balance + t.amount else balance - t.amount

/-- The running balances attached by `transactionsWithBalance` in
`Ledger.tsx`: sort ascending by date, then scan accumulating `runningStep`. -/
def runningBalances (transactions : List Transaction) : List ℚ :=
  ((jsSortBy dateCmp transactions).scanl runningStep 0).tail

/-- The final accumulated value of the running-balance scan of `Ledger.tsx`
(the balance attached to the last row). -/
def runningBalanceFinal (transactions : List Transaction) : ℚ :=
  (jsSortBy dateCmp transactions).foldl runningStep 0

/-! ## Budget vs. actuals (`Reports.tsx` lines 39–87) -/

/-- Year and month of a parsed date, as JavaScript `getFullYear`/`getMonth`
return them (`monthDiff` reads nothing else of the parsed `Date`). -/
structure JsDate where
  year : Int
  month : Int
deriving DecidableEq

/-- `monthDiff` from `Reports.tsx` lines 39–46:
`(y2 − y1) * 12 − m1 + m2`, plus one, clamped to at least 1. -/
def monthDiff (d1 d2 : JsDate) : Int :=
  max ((d2.year - d1.year) * 12 - d1.month + d2.month + 1) 1

/-- One row of `budgetVsActualsData` (`Reports.tsx` lines 77–85). -/
structure VarianceRow where
  code : String
  category : String
  actual : ℚ
  budget : ℚ
  monthlyBudget : ℚ
  variance : ℚ
  variancePercent : ℚ
deriving DecidableEq

/-- The sort comparator of `budgetVsActualsData` (`Reports.tsx` line 86):
`(a, b) => (Math.abs(a.variance) > Math.abs(b.variance) ? -1 : 1)`. -/
def varianceCmp (a b : VarianceRow) : Int :=
  if |a.variance| > |b.variance| then -1 else 1

/-- The `map` body of `budgetVsActualsData` (`Reports.tsx` lines 61–85),
before sorting.  `monthDiffVal` is the memoised `monthDiff` value computed
from the date range's parsed endpoints. -/
def budgetRow (transactions : List Transaction) (budget : List BudgetLine)
    (startDate endDate : String) (monthDiffVal : Int)
    (cat : ChartOfAccountItem) : VarianceRow :=
  let actual : ℚ :=
    (transactions.filter (fun t =>
        decide (t.accountCode = cat.code) && isExpenseType t.type &&
        decide (startDate ≤ t.date) && decide (t.date ≤ endDate))).foldl
      (fun sum t => sum + t.amount) 0
  let monthlyBudget : ℚ :=
    match budget.find? (fun b => b.code == cat.code) with
    | some budgetItem => budgetItem.monthlyBudget
    | none => 0
  let totalBudget : ℚ := monthlyBudget * (monthDiffVal : ℚ)
  { code := cat.code
    category := cat.category
    actual := actual
    budget := totalBudget
    monthlyBudget := monthlyBudget
    variance := totalBudget - actual
    variancePercent :=
      if totalBudget > 0 then ((totalBudget - actual) / totalBudget) * 100
      else 0 }

/-- `budgetVsActualsData` from `Reports.tsx` lines 60–87: rows for every
non-header account, sorted by the descending-absolute-variance comparator. -/
def budgetVsActualsData (transactions : List Transaction)
    (chartOfAccounts : List ChartOfAccountItem) (budget : List BudgetLine)
    (startDate endDate : String) (monthDiffVal : Int) : List VarianceRow :=
  jsSortBy varianceCmp
    ((chartOfAccounts.filter (fun c => !c.isHeader)).map
      (budgetRow transactions budget startDate endDate monthDiffVal))

/-! ## Trial balance (`Reports.tsx` lines 91–135) -/

/-- One row of the trial balance (`Reports.tsx` lines 92–129). -/
structure TrialRow where
  code : String
  category : String
  debit : ℚ
  credit : ℚ
  isHeader : Bool
deriving DecidableEq

/-- The debit-bucket type test of `trialBalanceData` (`Reports.tsx`
lines 100–108): EXPENSE, ADV, PCA, NB, TRF, ITAX, WHT, SSEC. -/
def isTrialDebitType (t : TransactionType) : Bool :=
  t == EXPENSE || t == ADV || t == PCA || t == NB ||
  t == TRF || t == ITAX || t == WHT || t == SSEC

/-- The `totalDebits` of one account inside `trialBalanceData`
(`Reports.tsx` lines 97–109). -/
def trialDebitsOf (transactions : List Transaction) (code : String) : ℚ :=
  ((transactions.filter (fun t => t.accountCode == code)).filter
    (fun t => isTrialDebitType t.type)).foldl (fun sum t => sum + t.amount) 0

/-- The `totalCredits` of one account inside `trialBalanceData`
(`Reports.tsx` line 112). -/
def trialCreditsOf (transactions : List Transaction) (code : String) : ℚ :=
  ((transactions.filter (fun t => t.accountCode == code)).filter
    (fun t => isIncomeType t.type || isOpeningType t.type)).foldl
    (fun sum t => sum + t.amount) 0

/-- The `map` body of `trialBalanceData` (`Reports.tsx` lines 92–129):
headers pass through with zero amounts; otherwise net the account's debit
bucket against its credit bucket. -/
def trialBalanceRow (transactions : List Transaction)
    (account : ChartOfAccountItem) : TrialRow :=
  if account.isHeader then
    { code := account.code, category := account.category,
      debit := 0, credit := 0, isHeader := true }
  else
    let totalDebits : ℚ := trialDebitsOf transactions account.code
    let totalCredits : ℚ := trialCreditsOf transactions account.code
    { code := account.code, category := account.category,
      debit := if totalDebits > totalCredits then totalDebits - totalCredits else 0,
      credit := if totalDebits > totalCredits then 0 else totalCredits - totalDebits,
      isHeader := false }

/-- The value of the `trialBalanceData` memo (`Reports.tsx` lines 91–135). -/
structure TrialBalanceData where
  items : List TrialRow
  totalDebits : ℚ
  totalCredits : ℚ

/-- `trialBalanceData` from `Reports.tsx` lines 91–135. -/
def trialBalanceData (transactions : List Transaction)
    (chartOfAccounts : List ChartOfAccountItem) : TrialBalanceData :=
  let items := chartOfAccounts.map (trialBalanceRow transactions)
  { items := items
    totalDebits := items.foldl (fun sum item => sum + item.debit) 0
    totalCredits := items.foldl (fun sum item => sum + item.credit) 0 }

/-! ## Bank reconciliation (`Reports.tsx` lines 139–177) -/

/-- The value of the `bankRecData` memo (`Reports.tsx` lines 166–176). -/
structure BankRecData where
  ledgerBalance : ℚ
  unreconciled : List Transaction
  reconciled : List Transaction
  unpresentedCheques : List Transaction
  outstandingDeposits : List Transaction
  totalUnpresented : ℚ
  totalOutstanding : ℚ
  projectedBankBalance : ℚ
  difference : ℚ

/-- `bankRecData` from `Reports.tsx` lines 139–177 with the reconciliation
date and statement balance as inputs. -/
def bankRecData (transactions : List Transaction) (asOfDate : String)
    (bankStatementBalance : ℚ) : BankRecData :=
  let relevantTransactions := transactions.filter (fun t => decide (t.date ≤ asOfDate))
  let ledgerBalance : ℚ := relevantTransactions.foldl
    (fun acc t =>
      if isIncomeType t.type || isOpeningType t.type then acc + t.amount
      else acc - t.amount) 0
  let unreconciled := relevantTransactions.filter (fun t => t.status != RECONCILED)
  let reconciled := relevantTransactions.filter (fun t => t.status == RECONCILED)
  let unpresentedCheques :=
    unreconciled.filter (fun t => !(isIncomeType t.type) && !(isOpeningType t.type))
  let outstandingDeposits :=
    unreconciled.filter (fun t => isIncomeType t.type || isOpeningType t.type)
  let totalUnpresented : ℚ := unpresentedCheques.foldl (fun sum t => sum + t.amount) 0
  let totalOutstanding : ℚ := outstandingDeposits.foldl (fun sum t => sum + t.amount) 0
  let projectedBankBalance := ledgerBalance + totalUnpresented - totalOutstanding
  { ledgerBalance := ledgerBalance
    unreconciled := unreconciled
    reconciled := reconciled
    unpresentedCheques := unpresentedCheques
    outstandingDeposits := outstandingDeposits
    totalUnpresented := totalUnpresented
    totalOutstanding := totalOutstanding
    projectedBankBalance := projectedBankBalance
    difference := projectedBankBalance - bankStatementBalance }

/-! ## Reconciliation matcher (`Reconciliation.tsx`) -/

/-- `unreconciledLedger` from `Reconciliation.tsx` line 12. -/
def unreconciledLedger (transactions : List Transaction) : List Transaction :=
  transactions.filter (fun t => t.status != RECONCILED)

/-- The candidate list rendered for a bank line (`Reconciliation.tsx`
lines 179–187): unreconciled transactions whose amount is within 0.01 of the
bank line's absolute amount. -/
def matchCandidates (transactions : List Transaction) (line : BankTransaction) :
    List Transaction :=
  (unreconciledLedger transactions).filter
    (fun t => decide (abs (t.amount - abs line.amount) < 1/100))

/-- `handleMatch` from `Reconciliation.tsx` lines 18–24: look the ledger
transaction up by id; if found, commit its status to RECONCILED through
`updateTransaction` and drop the bank line from the working set. -/
def handleMatch (transactions : List Transaction) (bankLines : List BankTransaction)
    (ledgerId bankId : String) : List Transaction × List BankTransaction :=
  match transactions.find? (fun t => t.id == ledgerId) with
  | some tx =>
      (updateTransaction transactions { tx with status := RECONCILED },
       bankLines.filter (fun b => b.id != bankId))
  | none => (transactions, bankLines)

/-! ## Ledger CSV bulk import (`Reconciliation.tsx` lines 62–91) -/

/-- JavaScript's `x || d` for the string fields of the import: the default is
taken when the column is absent or the empty string. -/
def strOr (s : Option String) (d : String) : String :=
  match s with
  | some t => if t = "" then d else t
  | none => d

/-- The per-row body of the ledger CSV import loop (`Reconciliation.tsx`
lines 67–88).  `parseFloat` models JavaScript's `parseFloat` (`none` for NaN,
so that `parseFloat(cols[5]) || 0` becomes `getD 0`); `today` is
`new Date().toISOString().split('T')[0]` and `freshId` is
`crypto.randomUUID()`.  Rows with fewer than 4 columns produce nothing. -/
def parseLedgerRow (today freshId : String) (parseFloat : String → Option ℚ)
    (cols : List String) : Option Transaction :=
  if 4 ≤ cols.length then
    let amount : ℚ := ((cols.get? 5).bind parseFloat).getD 0
    some
      { id := freshId
        date := strOr (cols.get? 0) today
        voucherNumber := strOr (cols.get? 1) "IMP"
        chequeNumber := none
        activity := strOr (cols.get? 2) ""
        accountCode := strOr (cols.get? 3) "NB"
        description := strOr (cols.get? 4) "Imported Transaction"
        amount := |amount|
        type := if 0 ≤ amount then INCOME else EXPENSE
        status := PENDING
        payeeOrPayer := "Imported" }
  else none

/-! ## Sample data used by concrete witnesses and counterexamples -/

/-- A cleared income transaction of 1000 (the spec's first scenario). -/
def incomeTx : Transaction :=
  { id := "t1", date := "2024-01-05", voucherNumber := "V1", chequeNumber := none,
    activity := "", description := "Grant receipt", payeeOrPayer := "Donor",
    amount := 1000, type := INCOME, accountCode := "A", status := CLEARED }

/-- A pending expense transaction of 300 against account `A`. -/
def expenseTx : Transaction :=
  { id := "t2", date := "2024-01-10", voucherNumber := "V2", chequeNumber := none,
    activity := "", description := "Office supplies", payeeOrPayer := "Vendor",
    amount := 300, type := EXPENSE, accountCode := "A", status := PENDING }

/-- A pending contribution (CONT) transaction of 1. -/
def contTx : Transaction :=
  { id := "t3", date := "2024-02-01", voucherNumber := "V3", chequeNumber := none,
    activity := "", description := "Member contribution", payeeOrPayer := "Member",
    amount := 1, type := CONT, accountCode := "A", status := PENDING }

/-- A non-header chart-of-accounts entry with code `A`. -/
def sampleAccount : ChartOfAccountItem :=
  { code := "A", category := "Office supplies", isHeader := false }

/-- A budget line of 500 per month for account `A`. -/
def sampleBudget : BudgetLine := { code := "A", monthlyBudget := 500 }

/-- A bank-statement withdrawal line of −300. -/
def sampleLine : BankTransaction :=
  { id := "b1", date := "2024-01-10", description := "Cheque 17", amount := -300,
    matchedTransactionId := none }

/-! ## Helper abbreviations and lemmas -/

/-- Signed contribution of one transaction to `getBalance` (and to the
bank-reconciliation ledger balance, which uses the same classification). -/
def balSigned (t : Transaction) : ℚ :=
  if t.type = INCOME ∨ t.type = CONT ∨ t.type = OPENING then t.amount else -t.amount

/-- Signed contribution of one transaction to the ledger running balance. -/
def runSigned (t : Transaction) : ℚ :=
  if t.type = INCOME then t.amount else -t.amount

/-- Signed contribution of one transaction to a trial-balance account net
(debit-bucket types positive, credit-bucket types negative). -/
def trialSigned (t : Transaction) : ℚ :=
  if isTrialDebitType t.type then t.amount else -t.amount

lemma foldl_step_eq_sum {α : Type} (f : ℚ → α → ℚ) (g : α → ℚ)
    (hf : ∀ a x, f a x = a + g x) :
    ∀ (l : List α) (a : ℚ), l.foldl f a = a + (l.map g).sum := by
  intro l
  induction l with
  | nil => intro a; simp
  | cons x xs ih =>
      intro a
      rw [List.foldl_cons, ih, hf, List.map_cons, List.sum_cons]
      ring

lemma sum_map_add {α : Type} (f g : α → ℚ) (l : List α) :
    (l.map (fun x => f x + g x)).sum = (l.map f).sum + (l.map g).sum := by
  induction l with
  | nil => simp
  | cons x xs ih => simp [ih]; ring

lemma sum_map_sub {α : Type} (f g : α → ℚ) (l : List α) :
    (l.map (fun x => f x - g x)).sum = (l.map f).sum - (l.map g).sum := by
  induction l with
  | nil => simp
  | cons x xs ih => simp [ih]; ring

lemma sum_map_neg {α : Type} (f : α → ℚ) (l : List α) :
    (l.map (fun x => -f x)).sum = -(l.map f).sum := by
  induction l with
  | nil => simp
  | cons x xs ih => simp [ih]; ring

lemma getBalance_eq_sum (txs : List Transaction) :
    getBalance txs = (txs.map balSigned).sum := by
  have h := foldl_step_eq_sum getBalanceStep balSigned
    (fun a t => by
      unfold getBalanceStep balSigned
      split <;> ring) txs 0
  simpa [getBalance] using h

lemma jsInsert_perm {α : Type} (cmp : α → α → Int) (x : α) :
    ∀ l : List α, (jsInsert cmp x l).Perm (x :: l) := by
  intro l
  induction l with
  | nil => simp [jsInsert]
  | cons y ys ih =>
      unfold jsInsert
      split
      · exact List.Perm.refl _
      · exact (List.Perm.cons y ih).trans (List.Perm.swap x y ys)

lemma jsSortBy_perm {α : Type} (cmp : α → α → Int) :
    ∀ l : List α, (jsSortBy cmp l).Perm l := by
  intro l
  induction l with
  | nil => simp [jsSortBy]
  | cons x xs ih =>
      have : jsSortBy cmp (x :: xs) = jsInsert cmp x (jsSortBy cmp xs) := rfl
      rw [this]
      exact (jsInsert_perm cmp x _).trans (List.Perm.cons x ih)

lemma mem_jsInsert {α : Type} {cmp : α → α → Int} {x u : α} {l : List α}
    (h : u ∈ jsInsert cmp x l) : u = x ∨ u ∈ l := by
  have := (jsInsert_perm cmp x l).mem_iff.mp h
  simpa using this

lemma jsInsert_pairwise {α : Type} {cmp : α → α → Int} {k : α → ℚ}
    (h1 : ∀ a b, cmp a b ≤ 0 → k b ≤ k a)
    (h2 : ∀ a b, ¬ cmp a b ≤ 0 → k a ≤ k b) (x : α) :
    ∀ l : List α, l.Pairwise (fun a b => k b ≤ k a) →
      (jsInsert cmp x l).Pairwise (fun a b => k b ≤ k a) := by
  intro l
  induction l with
  | nil => intro _; simp [jsInsert]
  | cons y ys ih =>
      intro hl
      rw [List.pairwise_cons] at hl
      unfold jsInsert
      split
      · rename_i hcmp
        rw [List.pairwise_cons]
        refine ⟨?_, List.pairwise_cons.mpr hl⟩
        intro u hu
        rcases List.mem_cons.mp hu with hu | hu
        · rw [hu]; exact h1 x y hcmp
        · exact le_trans (hl.1 u hu) (h1 x y hcmp)
      · rename_i hcmp
        rw [List.pairwise_cons]
        refine ⟨?_, ih hl.2⟩
        intro u hu
        rcases mem_jsInsert hu with hu | hu
        · rw [hu]; exact h2 x y hcmp
        · exact hl.1 u hu

lemma jsSortBy_pairwise {α : Type} {cmp : α → α → Int} {k : α → ℚ}
    (h1 : ∀ a b, cmp a b ≤ 0 → k b ≤ k a)
    (h2 : ∀ a b, ¬ cmp a b ≤ 0 → k a ≤ k b) :
    ∀ l : List α, (jsSortBy cmp l).Pairwise (fun a b => k b ≤ k a) := by
  intro l
  induction l with
  | nil => simp [jsSortBy]
  | cons x xs ih => exact jsInsert_pairwise h1 h2 x _ ih

lemma find_eq_of_nodup {txs : List Transaction} {tx : Transaction}
    (hmem : tx ∈ txs) (hids : (txs.map (fun t => t.id)).Nodup) :
    txs.find? (fun t => t.id == tx.id) = some tx := by
  induction txs with
  | nil => cases hmem
  | cons y ys ih =>
      rw [List.map_cons, List.nodup_cons] at hids
      by_cases hy : y.id = tx.id
      · have hytx : y = tx := by
          rcases List.mem_cons.mp hmem with h | h
          · exact h.symm
          · exfalso
            exact hids.1 (hy ▸ List.mem_map.mpr ⟨tx, h, rfl⟩)
        rw [List.find?_cons_of_pos _ (by simp [hy]), hytx]
      · have htx : tx ∈ ys := by
          rcases List.mem_cons.mp hmem with h | h
          · exact absurd (h ▸ rfl) hy
          · exact h
        rw [List.find?_cons_of_neg _ (by simp [hy])]
        exact ih htx hids.2

lemma runningBalanceFinal_eq_sum (txs : List Transaction) :
    runningBalanceFinal txs = ((jsSortBy dateCmp txs).map runSigned).sum := by
  have h := foldl_step_eq_sum runningStep runSigned
    (fun a t => by
      unfold runningStep runSigned
      split <;> ring) (jsSortBy dateCmp txs) 0
  simpa [runningBalanceFinal] using h

/-! ## C1: running balance vs. getBalance -/

/-- C1, counterexample: for a single CONT transaction the ledger's running
balance subtracts the amount (only INCOME adds, `Ledger.tsx` line 173)
while `getBalance` adds it (`FinanceContext.tsx` line 120), so the claimed
equality fails on this non-empty list. -/
theorem runningBalanceFinal_ne_getBalance_on_cont :
    runningBalanceFinal [contTx] ≠ getBalance [contTx] := by
  simp [runningBalanceFinal, jsSortBy, jsInsert, runningStep, getBalance,
    getBalanceStep, contTx]
  norm_num

/-- C1 (amended): for every non-empty transaction list that contains no CONT
and no OPENING transaction, the final accumulated value of the date-sorted
running-balance scan equals `getBalance()`. -/
theorem runningBalanceFinal_eq_getBalance (txs : List Transaction)
    (_hne : txs ≠ []) (h : ∀ t ∈ txs, t.type ≠ CONT ∧ t.type ≠ OPENING) :
    runningBalanceFinal txs = getBalance txs := by
  rw [runningBalanceFinal_eq_sum, getBalance_eq_sum]
  have hperm : ((jsSortBy dateCmp txs).map runSigned).Perm (txs.map runSigned) :=
    (jsSortBy_perm dateCmp txs).map _
  rw [hperm.sum_eq]
  congr 1
  apply List.map_congr_left
  intro t ht
  have hc := h t ht
  unfold runSigned balSigned
  by_cases hI : t.type = INCOME
  · simp [hI]
  · simp [hI, hc.1, hc.2]

/-- C1, witness: the amended equality at a concrete two-element list. -/
theorem runningBalanceFinal_eq_getBalance_witness :
    runningBalanceFinal [incomeTx, expenseTx] = getBalance [incomeTx, expenseTx] :=
  runningBalanceFinal_eq_getBalance [incomeTx, expenseTx] (by decide) (by decide)

/-! ## C8: delete is exhaustive and idempotent -/

/-- C8: `delete(id)` removes exactly the transactions whose string-coerced id
equals the string-coerced input id, and a second call with the same id is a
no-op (`deleteTransaction` is a total function, so no error is possible). -/
theorem deleteTransaction_spec (txs : List Transaction) (id : String) :
    (∀ t, t ∈ deleteTransaction txs id ↔
      (t ∈ txs ∧ toString t.id ≠ toString id)) ∧
    deleteTransaction (deleteTransaction txs id) id = deleteTransaction txs id := by
  constructor
  · intro t
    simp [deleteTransaction, List.mem_filter]
  · unfold deleteTransaction
    rw [List.filter_filter]
    apply List.filter_congr
    intro t _
    simp

/-! ## C3 and C10: bank reconciliation -/

lemma foldl_amount (l : List Transaction) :
    l.foldl (fun sum t => sum + t.amount) 0 = (l.map (fun t => t.amount)).sum := by
  simpa using foldl_step_eq_sum _ (fun t => t.amount) (fun a t => rfl) l 0

lemma ledger_foldl_eq_sum (l : List Transaction) :
    l.foldl (fun acc t =>
      if isIncomeType t.type || isOpeningType t.type then acc + t.amount
      else acc - t.amount) 0 = (l.map balSigned).sum := by
  have h := foldl_step_eq_sum
    (fun acc t =>
      if isIncomeType t.type || isOpeningType t.type then acc + t.amount
      else acc - t.amount) balSigned
    (fun a t => by
      unfold balSigned
      cases htype : t.type <;>
        simp [isIncomeType, isOpeningType, htype] <;> ring) l 0
  simpa using h

lemma balSigned_of_inflow {t : Transaction}
    (h : (isIncomeType t.type || isOpeningType t.type) = true) :
    balSigned t = t.amount := by
  unfold balSigned
  cases htype : t.type <;> simp [isIncomeType, isOpeningType, htype] at h ⊢

lemma balSigned_of_outflow {t : Transaction}
    (h : (isIncomeType t.type || isOpeningType t.type) = false) :
    balSigned t = -t.amount := by
  unfold balSigned
  cases htype : t.type <;> simp [isIncomeType, isOpeningType, htype] at h ⊢

/-- The unreconciled items cancel against the ledger balance, leaving the
signed balance of the reconciled transactions. -/
lemma bankRec_core : ∀ l : List Transaction,
    (l.map balSigned).sum
      + (((l.filter (fun t => t.status != RECONCILED)).filter
            (fun t => !(isIncomeType t.type) && !(isOpeningType t.type))).map
          (fun t => t.amount)).sum
      - (((l.filter (fun t => t.status != RECONCILED)).filter
            (fun t => isIncomeType t.type || isOpeningType t.type)).map
          (fun t => t.amount)).sum
    = ((l.filter (fun t => t.status == RECONCILED)).map balSigned).sum := by
  intro l
  induction l with
  | nil => simp
  | cons t ts ih =>
      by_cases hrec : t.status = RECONCILED
      · simp only [List.filter_cons, hrec]
        simp only [bne_self_eq_false, beq_self_eq_true, if_true, if_false,
          Bool.false_eq_true, List.map_cons, List.sum_cons]
        linarith [ih]
      · have hbne : (t.status != RECONCILED) = true := by simp [hrec]
        have hbeq : (t.status == RECONCILED) = false := by simp [hrec]
        by_cases hin : (isIncomeType t.type || isOpeningType t.type) = true
        · have hout : (!(isIncomeType t.type) && !(isOpeningType t.type)) = false := by
            rcases Bool.or_eq_true_iff.mp hin with h | h <;> simp [h]
          simp only [List.filter_cons, hbne, hbeq, hin, hout, if_true,
            Bool.false_eq_true, if_false, List.map_cons, List.sum_cons]
          rw [balSigned_of_inflow hin]
          linarith [ih]
        · have hin' : (isIncomeType t.type || isOpeningType t.type) = false :=
            Bool.eq_false_iff.mpr hin
          have hout : (!(isIncomeType t.type) && !(isOpeningType t.type)) = true := by
            rcases Bool.or_eq_false_iff.mp hin' with ⟨h1, h2⟩
            simp [h1, h2]
          simp only [List.filter_cons, hbne, hbeq, hin', hout, if_true,
            Bool.false_eq_true, if_false, List.map_cons, List.sum_cons]
          rw [balSigned_of_outflow hin']
          linarith [ih]

/-- C3: the bank reconciliation computes
`projectedBankBalance = ledgerBalance + Σ unreconciled outflows − Σ unreconciled
inflows` over the transactions dated on or before `asOfDate`, and
`difference = projectedBankBalance − statementBalance`; when the statement
balance equals the projected balance the difference is 0 and the report is
balanced (`|difference| < 0.01`, `Reports.tsx` line 555). -/
theorem bankRecData_spec (txs : List Transaction) (asOf : String) (stmt : ℚ) :
    (bankRecData txs asOf stmt).projectedBankBalance =
      (bankRecData txs asOf stmt).ledgerBalance
        + ((((txs.filter (fun t => decide (t.date ≤ asOf))).filter
              (fun t => t.status != RECONCILED)).filter
              (fun t => !(isIncomeType t.type) && !(isOpeningType t.type))).map
            (fun t => t.amount)).sum
        - ((((txs.filter (fun t => decide (t.date ≤ asOf))).filter
              (fun t => t.status != RECONCILED)).filter
              (fun t => isIncomeType t.type || isOpeningType t.type)).map
            (fun t => t.amount)).sum
    ∧ (bankRecData txs asOf stmt).difference
        = (bankRecData txs asOf stmt).projectedBankBalance - stmt
    ∧ (stmt = (bankRecData txs asOf stmt).projectedBankBalance →
        (bankRecData txs asOf stmt).difference = 0 ∧
        |(bankRecData txs asOf stmt).difference| < 1/100) := by
  refine ⟨?_, ?_, ?_⟩
  · simp only [bankRecData, foldl_amount]
  · simp only [bankRecData]
  · intro h
    have hdiff : (bankRecData txs asOf stmt).difference = 0 := by
      simp only [bankRecData] at h ⊢
      rw [← h]
      ring
    refine ⟨hdiff, ?_⟩
    rw [hdiff]
    norm_num

/-- C3, witness: the balanced case at a concrete list whose projected bank
balance (0, since no transaction is reconciled yet) matches the statement. -/
theorem bankRecData_spec_witness :
    (bankRecData [incomeTx, expenseTx] "2024-01-31" 0).difference = 0 ∧
    |(bankRecData [incomeTx, expenseTx] "2024-01-31" 0).difference| < 1/100 :=
  (bankRecData_spec [incomeTx, expenseTx] "2024-01-31" 0).2.2 (by
    have hd1 : (['2', '0', '2', '4', '-', '0', '1', '-', '0', '5'] : List Char) ≤
        ['2', '0', '2', '4', '-', '0', '1', '-', '3', '1'] := by decide
    have hd2 : (['2', '0', '2', '4', '-', '0', '1', '-', '1', '0'] : List Char) ≤
        ['2', '0', '2', '4', '-', '0', '1', '-', '3', '1'] := by decide
    simp [bankRecData, incomeTx, expenseTx, isIncomeType, isOpeningType,
      hd1, hd2])

/-- C10: the projected bank balance equals `getBalance` restricted to the
RECONCILED transactions dated on or before the reconciliation date — the
unreconciled items cancel out of the projection entirely. -/
theorem projectedBankBalance_eq_reconciled_balance (txs : List Transaction)
    (asOf : String) (stmt : ℚ) :
    (bankRecData txs asOf stmt).projectedBankBalance =
      getBalance ((txs.filter (fun t => decide (t.date ≤ asOf))).filter
        (fun t => t.status == RECONCILED)) := by
  simp only [bankRecData, foldl_amount, ledger_foldl_eq_sum]
  rw [getBalance_eq_sum]
  exact bankRec_core _

/-! ## C4: month pro-rating and variance formulas -/

/-- C4: when start and end fall in the same calendar month `monthDiff` is 1
(so `totalBudget = monthlyBudget`); in general `monthDiff` is the inclusive
month count clamped to at least 1, and every `budgetVsActualsData` row has
`budget = monthlyBudget × monthDiff`, `variance = budget − actual` and
`variancePercent = variance / budget × 100` when `budget > 0`, else 0. -/
theorem budgetVsActuals_spec :
    (∀ y m : Int, monthDiff ⟨y, m⟩ ⟨y, m⟩ = 1) ∧
    (∀ d1 d2 : JsDate, 1 ≤ monthDiff d1 d2) ∧
    (∀ d1 d2 : JsDate, 1 ≤ (d2.year - d1.year) * 12 - d1.month + d2.month + 1 →
      monthDiff d1 d2 = (d2.year - d1.year) * 12 - d1.month + d2.month + 1) ∧
    (∀ (txs : List Transaction) (accounts : List ChartOfAccountItem)
        (budget : List BudgetLine) (s e : String) (md : Int),
      ∀ row ∈ budgetVsActualsData txs accounts budget s e md,
        row.budget = row.monthlyBudget * (md : ℚ) ∧
        row.variance = row.budget - row.actual ∧
        row.variancePercent =
          if row.budget > 0 then row.variance / row.budget * 100 else 0) := by
  refine ⟨?_, ?_, ?_, ?_⟩
  · intro y m
    simp [monthDiff]
  · intro d1 d2
    exact le_max_right _ _
  · intro d1 d2 h
    exact max_eq_left h
  · intro txs accounts budget s e md row hrow
    unfold budgetVsActualsData at hrow
    rw [(jsSortBy_perm varianceCmp _).mem_iff] at hrow
    rcases List.mem_map.mp hrow with ⟨cat, _, hcat⟩
    subst hcat
    refine ⟨rfl, rfl, ?_⟩
    simp only [budgetRow]

/-- C4, witness: the same-month case, a six-month range, and the row formulas
at a concrete one-account chart. -/
theorem budgetVsActuals_spec_witness :
    monthDiff ⟨2024, 0⟩ ⟨2024, 0⟩ = 1 ∧
    monthDiff ⟨2023, 11⟩ ⟨2024, 4⟩ = 6 ∧
    (budgetRow [expenseTx] [sampleBudget] "2024-01-01" "2024-01-31" 1
        sampleAccount).budget
      = (budgetRow [expenseTx] [sampleBudget] "2024-01-01" "2024-01-31" 1
          sampleAccount).monthlyBudget * ((1 : Int) : ℚ) := by
  refine ⟨budgetVsActuals_spec.1 2024 0, ?_, ?_⟩
  · have h := budgetVsActuals_spec.2.2.1 ⟨2023, 11⟩ ⟨2024, 4⟩ (by norm_num)
    rw [h]
    norm_num
  · refine (budgetVsActuals_spec.2.2.2 [expenseTx] [sampleAccount] [sampleBudget]
      "2024-01-01" "2024-01-31" 1 _ ?_).1
    have he : budgetVsActualsData [expenseTx] [sampleAccount] [sampleBudget]
        "2024-01-01" "2024-01-31" 1
          = [budgetRow [expenseTx] [sampleBudget] "2024-01-01" "2024-01-31" 1
              sampleAccount] := rfl
    rw [he]
    exact List.mem_cons_self _ _

/-! ## C9: variance rows sorted by descending absolute variance -/

/-- C9: the `budgetVsActualsData` rows come out sorted non-increasingly by
absolute variance (every row's `|variance|` is at least that of any later
row). -/
theorem budgetVsActuals_sorted (txs : List Transaction)
    (accounts : List ChartOfAccountItem) (budget : List BudgetLine)
    (s e : String) (md : Int) :
    (budgetVsActualsData txs accounts budget s e md).Pairwise
      (fun a b => |b.variance| ≤ |a.variance|) := by
  have h1 : ∀ a b : VarianceRow, varianceCmp a b ≤ 0 → |b.variance| ≤ |a.variance| := by
    intro a b hc
    by_cases h : |a.variance| > |b.variance|
    · exact le_of_lt h
    · exfalso
      unfold varianceCmp at hc
      rw [if_neg h] at hc
      norm_num at hc
  have h2 : ∀ a b : VarianceRow, ¬ varianceCmp a b ≤ 0 → |a.variance| ≤ |b.variance| := by
    intro a b hc
    by_cases h : |a.variance| > |b.variance|
    · exfalso
      apply hc
      unfold varianceCmp
      rw [if_pos h]
      norm_num
    · exact le_of_not_lt h
  unfold budgetVsActualsData
  exact @jsSortBy_pairwise VarianceRow varianceCmp (fun r => |r.variance|) h1 h2 _

/-! ## C5: trial-balance netting per account -/

/-- C5: a non-header trial-balance row nets the debit bucket against the
credit bucket — the larger side shows the excess, the other side shows zero —
and no row of the report ever has both `debit` and `credit` non-zero. -/
theorem trialBalanceRow_netting (txs : List Transaction)
    (accounts : List ChartOfAccountItem) (account : ChartOfAccountItem)
    (h : account.isHeader = false) :
    (trialDebitsOf txs account.code > trialCreditsOf txs account.code →
      (trialBalanceRow txs account).debit
          = trialDebitsOf txs account.code - trialCreditsOf txs account.code ∧
      (trialBalanceRow txs account).credit = 0) ∧
    (¬ trialDebitsOf txs account.code > trialCreditsOf txs account.code →
      (trialBalanceRow txs account).credit
          = trialCreditsOf txs account.code - trialDebitsOf txs account.code ∧
      (trialBalanceRow txs account).debit = 0) ∧
    (∀ row ∈ (trialBalanceData txs accounts).items,
      row.debit = 0 ∨ row.credit = 0) := by
  refine ⟨?_, ?_, ?_⟩
  · intro hgt
    simp [trialBalanceRow, h, hgt]
  · intro hle
    simp [trialBalanceRow, h, hle]
  · intro row hrow
    rcases List.mem_map.mp hrow with ⟨acc, _, hacc⟩
    subst hacc
    unfold trialBalanceRow
    by_cases hh : acc.isHeader
    · simp [hh]
    · by_cases hgt : trialDebitsOf txs acc.code > trialCreditsOf txs acc.code
      · right; simp [hh, hgt]
      · left; simp [hh, hgt]

/-- C5, witness: account `A` with a 300 expense and a 1000 income nets to a
700 credit and zero debit. -/
theorem trialBalanceRow_netting_witness :
    (trialBalanceRow [incomeTx, expenseTx] sampleAccount).credit
        = trialCreditsOf [incomeTx, expenseTx] sampleAccount.code
          - trialDebitsOf [incomeTx, expenseTx] sampleAccount.code ∧
    (trialBalanceRow [incomeTx, expenseTx] sampleAccount).debit = 0 :=
  (trialBalanceRow_netting [incomeTx, expenseTx] [] sampleAccount rfl).2.1 (by
    simp [trialDebitsOf, trialCreditsOf, incomeTx, expenseTx, sampleAccount,
      isTrialDebitType, isIncomeType, isOpeningType]
    norm_num)

/-! ## C6: matching a bank line against a ledger transaction -/

lemma eq_of_mem_of_id_eq {txs : List Transaction} {u tx : Transaction}
    (hids : (txs.map (fun t => t.id)).Nodup) (hu : u ∈ txs) (ht : tx ∈ txs)
    (h : u.id = tx.id) : u = tx :=
  List.inj_on_of_nodup_map hids hu ht h

/-- C6: for a bank line and an unreconciled ledger transaction whose amount
is within 0.01 of the line's absolute amount, the transaction is a displayed
candidate (candidates are exactly the non-RECONCILED transactions passing the
amount test), and performing the match sets exactly that transaction's status
to RECONCILED, leaves every other transaction unchanged, and removes the bank
line from the working set. -/
theorem handleMatch_spec (txs : List Transaction) (lines : List BankTransaction)
    (tx : Transaction) (line : BankTransaction)
    (hmem : tx ∈ txs) (hids : (txs.map (fun t => t.id)).Nodup)
    (hstat : tx.status ≠ RECONCILED)
    (hamt : abs (tx.amount - abs line.amount) < 1/100) :
    tx ∈ matchCandidates txs line ∧
    (∀ u ∈ matchCandidates txs line, u.status ≠ RECONCILED) ∧
    (handleMatch txs lines tx.id line.id).1 =
      txs.map (fun u => if u.id = tx.id then { u with status := RECONCILED } else u) ∧
    { tx with status := RECONCILED } ∈ (handleMatch txs lines tx.id line.id).1 ∧
    (handleMatch txs lines tx.id line.id).2 =
      lines.filter (fun b => b.id != line.id) ∧
    line ∉ (handleMatch txs lines tx.id line.id).2 := by
  have hfind : txs.find? (fun t => t.id == tx.id) = some tx :=
    find_eq_of_nodup hmem hids
  have hHM : handleMatch txs lines tx.id line.id =
      (updateTransaction txs { tx with status := RECONCILED },
       lines.filter (fun b => b.id != line.id)) := by
    unfold handleMatch
    rw [hfind]
  have hmap : (handleMatch txs lines tx.id line.id).1 =
      txs.map (fun u => if u.id = tx.id then { u with status := RECONCILED } else u) := by
    rw [hHM]
    unfold updateTransaction
    apply List.map_congr_left
    intro u hu
    by_cases h : u.id = tx.id
    · have hutx : u = tx := eq_of_mem_of_id_eq hids hu hmem h
      simp [h, hutx]
    · simp [h]
  refine ⟨?_, ?_, hmap, ?_, ?_, ?_⟩
  · unfold matchCandidates unreconciledLedger
    rw [List.mem_filter, List.mem_filter]
    refine ⟨⟨hmem, by simp [hstat]⟩, by simpa using hamt⟩
  · intro u hu
    unfold matchCandidates unreconciledLedger at hu
    rw [List.mem_filter, List.mem_filter] at hu
    simpa using hu.1.2
  · rw [hmap]
    exact List.mem_map.mpr ⟨tx, hmem, by simp⟩
  · rw [hHM]
  · rw [hHM]
    intro hin
    rw [List.mem_filter] at hin
    simp at hin

/-- C6, witness: the spec's scenario — a −300 bank line against a pending
300 expense — matched and removed. -/
theorem handleMatch_spec_witness :
    { expenseTx with status := RECONCILED }
        ∈ (handleMatch [expenseTx] [sampleLine] expenseTx.id sampleLine.id).1 ∧
    sampleLine ∉ (handleMatch [expenseTx] [sampleLine] expenseTx.id sampleLine.id).2 := by
  have hamt : abs (expenseTx.amount - abs sampleLine.amount) < 1/100 := by
    rw [show sampleLine.amount = -300 from rfl, show expenseTx.amount = 300 from rfl,
      abs_neg, abs_of_nonneg (by norm_num : (0:ℚ) ≤ 300)]
    norm_num
  exact
    ⟨(handleMatch_spec [expenseTx] [sampleLine] expenseTx sampleLine (by simp)
        (by simp) (by simp [expenseTx]) hamt).2.2.2.1,
     (handleMatch_spec [expenseTx] [sampleLine] expenseTx sampleLine (by simp)
        (by simp) (by simp [expenseTx]) hamt).2.2.2.2.2⟩

/-! ## C7: ledger CSV bulk-import row contract -/

/-- A model of `parseFloat` for witness data: parses exactly the string
`-300`. -/
def sampleParse : String → Option ℚ :=
  fun s => if s = "-300" then some (-300) else none

/-- The transaction produced by the import row
`2024-01-02,V1,Outreach,1.2,Fuel,-300`. -/
def sampleImported : Transaction :=
  { id := "imp-1", date := "2024-01-02", voucherNumber := "V1",
    chequeNumber := none, activity := "Outreach", accountCode := "1.2",
    description := "Fuel", amount := 300, type := EXPENSE,
    status := PENDING, payeeOrPayer := "Imported" }

/-- C7, counterexample: a row with only three columns is rejected outright
(`cols.length >= 4` guard in `Reconciliation.tsx` line 69), not defaulted —
refuting "missing columns are given placeholder default values rather than
being rejected" for such rows. -/
theorem parseLedgerRow_rejects_short_row :
    parseLedgerRow "2024-01-01" "imp-9" (fun _ => none)
      ["2024-01-02", "V9", "Outreach"] = none := rfl

/-- C7 (amended): a row with at least 4 columns yields a transaction whose
type is INCOME when the parsed amount is ≥ 0 and EXPENSE otherwise and whose
stored amount is the absolute value of the parsed amount, with missing
trailing columns (description, amount) given placeholder defaults; rows with
fewer than 4 columns are skipped. -/
theorem parseLedgerRow_spec (today freshId : String)
    (parseFloat : String → Option ℚ) (cols : List String) :
    (∀ tx, parseLedgerRow today freshId parseFloat cols = some tx →
      tx.amount = |((cols.get? 5).bind parseFloat).getD 0| ∧
      tx.type = (if 0 ≤ ((cols.get? 5).bind parseFloat).getD 0
        then INCOME else EXPENSE) ∧
      (cols.get? 4 = none → tx.description = "Imported Transaction") ∧
      (cols.get? 5 = none → tx.amount = 0 ∧ tx.type = INCOME)) ∧
    ((parseLedgerRow today freshId parseFloat cols).isSome ↔ 4 ≤ cols.length) := by
  constructor
  · intro tx htx
    unfold parseLedgerRow at htx
    by_cases h4 : 4 ≤ cols.length
    · rw [if_pos h4] at htx
      injection htx with htx
      subst htx
      refine ⟨rfl, rfl, ?_, ?_⟩
      · intro h5
        rw [List.get?_eq_getElem?] at h5
        simp [strOr, h5]
      · intro h5
        rw [List.get?_eq_getElem?] at h5
        simp [h5]
    · rw [if_neg h4] at htx
      cases htx
  · unfold parseLedgerRow
    by_cases h4 : 4 ≤ cols.length
    · simp [h4]
    · simp [h4]

/-- C7, witness: the six-column row `2024-01-02,V1,Outreach,1.2,Fuel,-300`
imports as a pending EXPENSE of magnitude 300. -/
theorem parseLedgerRow_spec_witness :
    (parseLedgerRow "2024-01-01" "imp-1" sampleParse
        ["2024-01-02", "V1", "Outreach", "1.2", "Fuel", "-300"]).isSome ∧
    sampleImported.amount =
      |(((["2024-01-02", "V1", "Outreach", "1.2", "Fuel", "-300"] :
          List String).get? 5).bind sampleParse).getD 0| := by
  constructor
  · exact (parseLedgerRow_spec "2024-01-01" "imp-1" sampleParse
      ["2024-01-02", "V1", "Outreach", "1.2", "Fuel", "-300"]).2.mpr (by norm_num)
  · exact ((parseLedgerRow_spec "2024-01-01" "imp-1" sampleParse
      ["2024-01-02", "V1", "Outreach", "1.2", "Fuel", "-300"]).1
        sampleImported rfl).1

/-! ## C2: trial-balance totals against getBalance -/

lemma sum_filter_eq_sum_ite {α : Type} (g : α → ℚ) (p : α → Bool) (l : List α) :
    ((l.filter p).map g).sum = (l.map (fun x => if p x then g x else 0)).sum := by
  induction l with
  | nil => simp
  | cons x xs ih =>
      by_cases h : p x <;> simp [List.filter_cons, h, ih]

lemma trialSigned_eq_neg_balSigned (t : Transaction) :
    trialSigned t = -balSigned t := by
  unfold trialSigned balSigned
  cases htype : t.type <;> simp [isTrialDebitType, htype]

lemma filtered_debits_sub_credits (l : List Transaction) :
    ((l.filter (fun t => isTrialDebitType t.type)).map (fun t => t.amount)).sum
      - ((l.filter (fun t => isIncomeType t.type || isOpeningType t.type)).map
          (fun t => t.amount)).sum
    = (l.map trialSigned).sum := by
  induction l with
  | nil => simp
  | cons t ts ih =>
      rw [List.map_cons, List.sum_cons, ← ih]
      cases htype : t.type <;>
        simp [List.filter_cons, isTrialDebitType, isIncomeType, isOpeningType,
          trialSigned, htype] <;> ring

lemma trialBalanceRow_sub (txs : List Transaction) (a : ChartOfAccountItem) :
    (trialBalanceRow txs a).debit - (trialBalanceRow txs a).credit
      = if a.isHeader then 0
        else ((txs.filter (fun t => t.accountCode == a.code)).map trialSigned).sum := by
  unfold trialBalanceRow
  by_cases hh : a.isHeader
  · simp [hh]
  · rw [if_neg hh, if_neg hh]
    show (if trialDebitsOf txs a.code > trialCreditsOf txs a.code then _ else _)
        - (if trialDebitsOf txs a.code > trialCreditsOf txs a.code then _ else _) = _
    rw [← filtered_debits_sub_credits]
    unfold trialDebitsOf trialCreditsOf
    rw [foldl_amount, foldl_amount]
    split <;> ring

lemma sum_accounts_eq (txs : List Transaction) :
    ∀ accounts : List ChartOfAccountItem,
      (accounts.map (fun a => if a.isHeader then 0
          else ((txs.filter (fun t => t.accountCode == a.code)).map trialSigned).sum)).sum
      = (txs.map (fun t =>
          (((accounts.filter
              (fun a => !a.isHeader && a.code == t.accountCode)).length : ℚ))
            * trialSigned t)).sum := by
  intro accounts
  induction accounts with
  | nil => simp
  | cons a as ih =>
      rw [List.map_cons, List.sum_cons, ih]
      by_cases hh : a.isHeader
      · rw [if_pos hh, zero_add]
        apply congrArg List.sum
        apply List.map_congr_left
        intro t _
        simp [List.filter_cons, hh]
      · rw [if_neg hh]
        rw [sum_filter_eq_sum_ite trialSigned (fun t => t.accountCode == a.code) txs]
        rw [← sum_map_add]
        apply congrArg List.sum
        apply List.map_congr_left
        intro t _
        by_cases hc : a.code = t.accountCode
        · have hc' : t.accountCode == a.code := by simp [hc]
          have hp : (!a.isHeader && a.code == t.accountCode) = true := by
            simp [hh, hc]
          simp only [List.filter_cons, hp, if_true, List.length_cons, hc']
          push_cast
          ring
        · have hc' : (t.accountCode == a.code) = false := by
            simp
            exact fun he => hc he.symm
          have hp : (!a.isHeader && a.code == t.accountCode) = false := by
            simp [hh, hc]
          simp only [List.filter_cons, hp, Bool.false_eq_true, if_false, hc']
          ring

/-- C2, counterexample: with an empty chart of accounts and one INCOME
transaction of 1000, Σ debit − Σ credit over the trial-balance rows is 0,
which equals neither `−getBalance()` (−1000) nor `+getBalance()` (1000):
the trial balance only counts transactions whose account code matches a
non-header chart entry, while `getBalance` counts every transaction. -/
theorem trialBalance_totals_ne_getBalance :
    ¬((trialBalanceData [incomeTx] []).totalDebits
        - (trialBalanceData [incomeTx] []).totalCredits = -(getBalance [incomeTx]) ∨
      (trialBalanceData [incomeTx] []).totalDebits
        - (trialBalanceData [incomeTx] []).totalCredits = getBalance [incomeTx]) := by
  simp [trialBalanceData, getBalance, getBalanceStep, incomeTx]

/-- C2 (amended): when every transaction's account code matches exactly one
non-header chart-of-accounts entry, Σ debit − Σ credit across the trial
balance equals `−getBalance()` (outflows positive on the debit side, so the
difference is the negated balance). -/
theorem trialBalance_totals_eq_neg_getBalance (txs : List Transaction)
    (accounts : List ChartOfAccountItem)
    (h : ∀ t ∈ txs,
      (accounts.filter (fun a => !a.isHeader && a.code == t.accountCode)).length
        = 1) :
    (trialBalanceData txs accounts).totalDebits
      - (trialBalanceData txs accounts).totalCredits = -(getBalance txs) := by
  have hD : (trialBalanceData txs accounts).totalDebits
      = ((accounts.map (trialBalanceRow txs)).map (fun r => r.debit)).sum := by
    have := foldl_step_eq_sum (fun sum item => sum + item.debit)
      (fun r => r.debit) (fun a x => rfl) (accounts.map (trialBalanceRow txs)) 0
    simpa [trialBalanceData] using this
  have hC : (trialBalanceData txs accounts).totalCredits
      = ((accounts.map (trialBalanceRow txs)).map (fun r => r.credit)).sum := by
    have := foldl_step_eq_sum (fun sum item => sum + item.credit)
      (fun r => r.credit) (fun a x => rfl) (accounts.map (trialBalanceRow txs)) 0
    simpa [trialBalanceData] using this
  rw [hD, hC, ← sum_map_sub, List.map_map]
  have hrows : (accounts.map
      ((fun r => r.debit - r.credit) ∘ trialBalanceRow txs)).sum
      = (accounts.map (fun a => if a.isHeader then 0
          else ((txs.filter (fun t => t.accountCode == a.code)).map
            trialSigned).sum)).sum := by
    apply congrArg List.sum
    apply List.map_congr_left
    intro a _
    exact trialBalanceRow_sub txs a
  rw [hrows, sum_accounts_eq txs accounts]
  have hones : (txs.map (fun t =>
      (((accounts.filter
          (fun a => !a.isHeader && a.code == t.accountCode)).length : ℚ))
        * trialSigned t)).sum
      = (txs.map (fun t => -balSigned t)).sum := by
    apply congrArg List.sum
    apply List.map_congr_left
    intro t ht
    rw [h t ht, trialSigned_eq_neg_balSigned]
    push_cast
    ring
  rw [hones, sum_map_neg, getBalance_eq_sum]

/-- C2, witness: the amended identity at a one-account chart covering both
transactions: Σ debit − Σ credit = −(700) = −getBalance. -/
theorem trialBalance_totals_eq_neg_getBalance_witness :
    (trialBalanceData [incomeTx, expenseTx] [sampleAccount]).totalDebits
      - (trialBalanceData [incomeTx, expenseTx] [sampleAccount]).totalCredits
      = -(getBalance [incomeTx, expenseTx]) :=
  trialBalance_totals_eq_neg_getBalance [incomeTx, expenseTx] [sampleAccount]
    (by
      intro t ht
      rcases List.mem_cons.mp ht with h1 | h1
      · subst h1; rfl
      · rcases List.mem_cons.mp h1 with h2 | h2
        · subst h2; rfl
        · cases h2)

end Finance
